import Mathlib

/-!
Verification development for the ropabase wardrobe-catalog backend.

Shallow embedding of the authentication subsystem
(src/controllers/auth.controller.js, src/middlewares/auth.middleware.js),
the response helpers (src/helpers/response.helpers.js, with the constants of
src/constants/httpResponses.js) and the clothing CRUD controller
(src/controllers/clothing.controller.js), over a generic document store
modelled as explicit lists of records.

Conventions of the embedding:
* JS strings are Lean `String`; a possibly-absent body/query field is
  `Option String`; JS falsiness of a string value (absent, or empty) is
  `isFalsy`.
* JSON web tokens are symbolic: `jwt.sign` builds a `Jwt` record carrying the
  payload user id, the signing secret and the expiry instant; `jwt.verify`
  succeeds exactly when the secret matches and the token is not expired.
  A cookie can also carry a structurally malformed token string.
* The SHA-256 fingerprint (`hashToken` in auth.controller.js) is modelled as
  an injective symbolic digest constructor (ideal collision-resistant hash).
* The Mongoose store is a list of records; `find` / `findById` /
  `findByIdAndUpdate` / `findByIdAndDelete` / `findOneAndUpdate` are explicit
  list operations.  Store exceptions are Mongoose errors carrying a `name`
  field (`ValidationError`, `CastError`, ...); they are modelled with
  `Except`: a malformed ObjectId raises a `CastError`, and an injected
  `fault` on the store makes every call raise that error (network failures
  and the like).
-/

-- Messages of `ERROR_MESSAGES` in src/constants/httpResponses.js.
namespace ERROR_MESSAGES

def INTERNAL_SERVER_ERROR : String := "Internal server error"

def UNAUTHORIZED : String := "User not authorized"

def NOT_FOUND : String := "Resource not found"

def VALIDATION_ERROR : String := "Validation error"

end ERROR_MESSAGES

-- Status codes of `HTTP_STATUS` in src/constants/httpResponses.js.
namespace HTTP_STATUS

def OK : Nat := 200

def CREATED : Nat := 201

def NO_CONTENT : Nat := 204

def BAD_REQUEST : Nat := 400

def UNAUTHORIZED : Nat := 401

def FORBIDDEN : Nat := 403

def NOT_FOUND : Nat := 404

def CONFLICT : Nat := 409

def INTERNAL_SERVER_ERROR : Nat := 500

end HTTP_STATUS

/-- A Mongoose/driver exception as observed by the catch blocks: the code
only ever inspects the `name` field. -/
structure StoreError where
  name : String
  message : String
deriving DecidableEq, Repr

/-- An HTTP error payload: status code plus the `message` JSON body. -/
structure HttpResponse where
  status : Nat
  message : String
deriving DecidableEq, Repr

/-- `handleDatabaseError` of src/helpers/response.helpers.js: classifies a
store exception into the response sent by `sendErrorResponse`
(ValidationError to 400, CastError to 404, everything else to 500). -/
def handleDatabaseError (error : StoreError) : HttpResponse :=
  if error.name = "ValidationError" then
    { status := HTTP_STATUS.BAD_REQUEST, message := ERROR_MESSAGES.VALIDATION_ERROR }
  else if error.name = "CastError" then
    { status := HTTP_STATUS.NOT_FOUND, message := ERROR_MESSAGES.NOT_FOUND }
  else
    { status := HTTP_STATUS.INTERNAL_SERVER_ERROR,
      message := ERROR_MESSAGES.INTERNAL_SERVER_ERROR }

/-- JS falsiness of an optional string value (absent or empty string). -/
def isFalsy : Option String → Bool
  | none => true
  | some s => s.isEmpty

/-- A signed JSON web token: the minimal claim set is just the user id
(`jwt.sign({ userId }, secret, { expiresIn })`); the signature is modelled
by remembering the signing secret, the expiry by an absolute instant. -/
structure Jwt where
  userId : String
  secret : String
  exp : Nat
deriving DecidableEq, Repr

/-- A token string held by a client (in a cookie): either a well-formed
signed token or a structurally malformed string. -/
inductive TokenValue where
  | jwt (t : Jwt)
  | malformed (s : String)
deriving DecidableEq, Repr

/-- `jwt.sign({ userId }, secret, { expiresIn })` at instant `now`. -/
def jwtSign (userId secret : String) (now expiresIn : Nat) : TokenValue :=
  TokenValue.jwt { userId := userId, secret := secret, exp := now + expiresIn }

/-- `jwt.verify(token, secret)` at instant `now`: returns the decoded user id
claim, or fails (throws, modelled as `none`) on signature mismatch,
expiry, or structural malformation. -/
def jwtVerify (now : Nat) (token : TokenValue) (secret : String) : Option String :=
  match token with
  | TokenValue.jwt t => if t.secret = secret ∧ now < t.exp then some t.userId else none
  | TokenValue.malformed _ => none

/-- JS falsiness of a token string held in a cookie: only the empty string is
falsy (a well-formed JWT is never the empty string). -/
def tokenFalsy : TokenValue → Bool
  | TokenValue.jwt _ => false
  | TokenValue.malformed s => s.isEmpty

/-- The SHA-256 digest of a token string (`hashToken` in auth.controller.js),
modelled as an injective symbolic constructor: SHA-256 is deterministic and
collision-resistant, and has no input-length ceiling. -/
inductive Digest where
  | sha256 (token : TokenValue)
deriving DecidableEq, Repr

/-- `hashToken` of src/controllers/auth.controller.js. -/
def hashToken (token : TokenValue) : Digest := Digest.sha256 token

/-- A user record per src/models/user.model.js: `password` holds the bcrypt
hash, `clothingItems` the ordered list of owned item references, and
`refreshToken` the SHA-256 digest of the active refresh token (absent when
no session is active). -/
structure User where
  id : String
  email : String
  password : String
  clothingItems : List String := []
  refreshToken : Option Digest := none
deriving DecidableEq, Repr

/-- The environment-configured signing secrets (`process.env.JWT_SECRET`,
`process.env.JWT_REFRESH_SECRET`). -/
structure Env where
  JWT_SECRET : String
  JWT_REFRESH_SECRET : String
deriving DecidableEq, Repr

/-- `maxAge` of the access-token cookie: 15 minutes (in milliseconds). -/
def ACCESS_TOKEN_MAX_AGE : Nat := 15 * 60 * 1000

/-- `maxAge` of the refresh-token cookie: 7 days (in milliseconds). -/
def REFRESH_TOKEN_MAX_AGE : Nat := 7 * 24 * 60 * 60 * 1000

/-- `User.findByIdAndUpdate(id, { refreshToken: hash })`: store the digest of
the active refresh token on the user record. -/
def setRefreshTokenHash (users : List User) (id : String) (h : Digest) : List User :=
  users.map (fun u => if u.id == id then { u with refreshToken := some h } else u)

/-- `User.findOneAndUpdate({ refreshToken: hash }, { $unset: { refreshToken } })`:
clear the stored digest on the first user whose stored digest matches. -/
def unsetRefreshTokenByHash : List User → Digest → List User
  | [], _ => []
  | u :: rest, h =>
    if u.refreshToken = some h then { u with refreshToken := none } :: rest
    else u :: unsetRefreshTokenByHash rest h

/-- The outcome of an auth endpoint: the HTTP response (status, message body,
optional userId body field), the cookie effects, and the resulting user
store. -/
structure AuthResult where
  status : Nat
  message : String
  userId : Option String := none
  setAccessCookie : Option TokenValue := none
  setRefreshCookie : Option TokenValue := none
  clearedAccessCookie : Bool := false
  clearedRefreshCookie : Bool := false
  users : List User
deriving DecidableEq, Repr

/-- What the client observes of an `AuthResult` (everything except the
server-side store). -/
structure ClientResponse where
  status : Nat
  message : String
  userId : Option String
  setAccessCookie : Option TokenValue
  setRefreshCookie : Option TokenValue
  clearedAccessCookie : Bool
  clearedRefreshCookie : Bool
deriving DecidableEq, Repr

/-- Projection of an `AuthResult` onto its client-observable part. -/
def AuthResult.client (r : AuthResult) : ClientResponse :=
  { status := r.status, message := r.message, userId := r.userId,
    setAccessCookie := r.setAccessCookie, setRefreshCookie := r.setRefreshCookie,
    clearedAccessCookie := r.clearedAccessCookie,
    clearedRefreshCookie := r.clearedRefreshCookie }

/-- `login` of src/controllers/auth.controller.js.  `compare` is the external
`bcrypt.compare` primitive (candidate password against stored hash). -/
def login (env : Env) (now : Nat) (compare : String → String → Bool)
    (users : List User) (email password : Option String) : AuthResult :=
  if isFalsy email || isFalsy password then
    { status := HTTP_STATUS.BAD_REQUEST, message := "Email and password are required",
      users := users }
  else
    match users.find? (fun u => u.email == email.getD "") with
    | none =>
      { status := HTTP_STATUS.UNAUTHORIZED, message := "Invalid credentials", users := users }
    | some user =>
      if !(compare (password.getD "") user.password) then
        { status := HTTP_STATUS.UNAUTHORIZED, message := "Invalid credentials", users := users }
      else
        let accessToken := jwtSign user.id env.JWT_SECRET now ACCESS_TOKEN_MAX_AGE
        let refreshToken := jwtSign user.id env.JWT_REFRESH_SECRET now REFRESH_TOKEN_MAX_AGE
        let hashedRefreshToken := hashToken refreshToken
        { status := HTTP_STATUS.OK, message := "Login successful", userId := some user.id,
          setAccessCookie := some accessToken, setRefreshCookie := some refreshToken,
          users := setRefreshTokenHash users user.id hashedRefreshToken }

/-- `refresh` of src/controllers/auth.controller.js: verifies the refresh
cookie (barrier 1: signature and expiry), then checks the stored digest
(barrier 2: revocation), and on success sets only a new access cookie. -/
def refresh (env : Env) (now : Nat) (users : List User)
    (refreshTokenCookie : Option TokenValue) : AuthResult :=
  match refreshTokenCookie with
  | none =>
    { status := HTTP_STATUS.UNAUTHORIZED, message := "No refresh token provided",
      users := users }
  | some refreshToken =>
    if tokenFalsy refreshToken then
      { status := HTTP_STATUS.UNAUTHORIZED, message := "No refresh token provided",
        users := users }
    else
      match jwtVerify now refreshToken env.JWT_REFRESH_SECRET with
      | none =>
        { status := HTTP_STATUS.UNAUTHORIZED, message := "Invalid refresh token",
          users := users }
      | some decodedUserId =>
        let hashedToken := hashToken refreshToken
        match users.find? (fun u => u.id == decodedUserId) with
        | none =>
          { status := HTTP_STATUS.UNAUTHORIZED, message := "Invalid refresh token",
            users := users }
        | some user =>
          if !(user.refreshToken = some hashedToken) then
            { status := HTTP_STATUS.UNAUTHORIZED, message := "Invalid refresh token",
              users := users }
          else
            let newAccessToken := jwtSign user.id env.JWT_SECRET now ACCESS_TOKEN_MAX_AGE
            { status := HTTP_STATUS.OK, message := "Token refreshed successfully",
              setAccessCookie := some newAccessToken, users := users }

/-- `logout` of src/controllers/auth.controller.js.  `dbFailure` models the
`User.findOneAndUpdate` call throwing; the exception is caught and
swallowed.  Both cookies are cleared and a success message is returned
unconditionally. -/
def logout (users : List User) (refreshTokenCookie : Option TokenValue)
    (dbFailure : Bool) : AuthResult :=
  let users2 :=
    match refreshTokenCookie with
    | none => users
    | some refreshToken =>
      if tokenFalsy refreshToken then users
      else if dbFailure then users
      else unsetRefreshTokenByHash users (hashToken refreshToken)
  { status := HTTP_STATUS.OK, message := "Logged out successfully",
    clearedAccessCookie := true, clearedRefreshCookie := true, users := users2 }

/-- The outcome of the access guard: either a 401 response, or the decoded
claims attached to the request (`req.user`). -/
inductive ProtectResult where
  | denied (response : HttpResponse)
  | allowed (decodedUserId : String)
deriving DecidableEq, Repr

/-- `protect` of src/middlewares/auth.middleware.js.  The token is read from
the `accessToken` cookie only; `authHeader` is the Authorization request
header, which the middleware never reads. -/
def protect (env : Env) (now : Nat) (accessTokenCookie : Option TokenValue)
    (_authHeader : Option String) : ProtectResult :=
  match accessTokenCookie with
  | none =>
    ProtectResult.denied
      { status := HTTP_STATUS.UNAUTHORIZED, message := "No token provided, authorization denied" }
  | some token =>
    if tokenFalsy token then
      ProtectResult.denied
        { status := HTTP_STATUS.UNAUTHORIZED,
          message := "No token provided, authorization denied" }
    else
      match jwtVerify now token env.JWT_SECRET with
      | some decoded => ProtectResult.allowed decoded
      | none =>
        ProtectResult.denied
          { status := HTTP_STATUS.UNAUTHORIZED, message := "Token is not valid" }

/-- A clothing item record per src/models/clothing.model.js (the model file
itself only reaches this repository through its test mock; the field set
is the one the controller reads and writes). -/
structure ClothingItem where
  id : String
  owner : String
  name : String
  category : String
  color : String
  brand : Option String := none
  imageUrl : Option String := none
  imagePublicId : Option String := none
deriving DecidableEq, Repr

/-- A raw query-string value as delivered by the HTTP framework: a string, or
a structured value (array/object) produced by query-string parsing. -/
inductive QueryValue where
  | str (s : String)
  | structured (description : String)
deriving DecidableEq, Repr

/-- The one store fault that is deterministic in the model: a malformed
ObjectId makes `findById` and friends throw a `CastError`. -/
def castError : StoreError :=
  { name := "CastError", message := "Cast to ObjectId failed" }

/-- The document store reached by the clothing controller: the item and user
collections, the ObjectId well-formedness test of the driver, and an
optional injected fault (when present, every store call throws it —
network errors, schema validation failures, and the like). -/
structure ItemDb where
  items : List ClothingItem
  users : List User
  validId : String → Bool
  fault : Option StoreError := none

/-- The filter object built by `getClothingItems`
(src/controllers/clothing.controller.js): literally
`{ owner: req.user.userId }`. -/
structure ClothingFilter where
  owner : String
deriving DecidableEq, Repr

/-- `ClothingItem.find(filter)`: all items matching the filter. -/
def ItemDb.findItems (db : ItemDb) (f : ClothingFilter) :
    Except StoreError (List ClothingItem) :=
  match db.fault with
  | some e => Except.error e
  | none => Except.ok (db.items.filter (fun it => it.owner == f.owner))

/-- `ClothingItem.findById(id)`: `none` when no item carries the id; throws a
`CastError` when the id is not a well-formed ObjectId. -/
def ItemDb.findById (db : ItemDb) (id : String) :
    Except StoreError (Option ClothingItem) :=
  match db.fault with
  | some e => Except.error e
  | none =>
    if db.validId id then Except.ok (db.items.find? (fun it => it.id == id))
    else Except.error castError

/-- The `dataToUpdate` object of `updateClothingItem`: fields that are
`undefined` in the request body stay absent and are ignored by the store
update. -/
structure UpdateData where
  name : Option String := none
  category : Option String := none
  color : Option String := none
  brand : Option String := none
  imageUrl : Option String := none
  imagePublicId : Option String := none
deriving DecidableEq, Repr

/-- Application of an update document to a stored item: every defined field
overwrites the stored one, absent fields are left unchanged. -/
def applyUpdate (it : ClothingItem) (d : UpdateData) : ClothingItem :=
  { it with
    name := d.name.getD it.name,
    category := d.category.getD it.category,
    color := d.color.getD it.color,
    brand := match d.brand with | some b => some b | none => it.brand,
    imageUrl := match d.imageUrl with | some u => some u | none => it.imageUrl,
    imagePublicId :=
      match d.imagePublicId with | some p => some p | none => it.imagePublicId }

/-- `ClothingItem.findByIdAndUpdate(id, dataToUpdate, { new: true })`: returns
the updated document (or `none` when the id matches nothing). -/
def ItemDb.findByIdAndUpdate (db : ItemDb) (id : String) (d : UpdateData) :
    Except StoreError (ItemDb × Option ClothingItem) :=
  match db.fault with
  | some e => Except.error e
  | none =>
    if db.validId id then
      match db.items.find? (fun it => it.id == id) with
      | none => Except.ok (db, none)
      | some it =>
        Except.ok
          ({ db with items := db.items.map (fun x => if x.id == id then applyUpdate x d else x) },
           some (applyUpdate it d))
    else Except.error castError

/-- `ClothingItem.findByIdAndDelete(id)`. -/
def ItemDb.findByIdAndDelete (db : ItemDb) (id : String) : Except StoreError ItemDb :=
  match db.fault with
  | some e => Except.error e
  | none =>
    if db.validId id then
      Except.ok { db with items := db.items.filter (fun it => !(it.id == id)) }
    else Except.error castError

/-- `ClothingItem.create({...})`: appends the new document. -/
def ItemDb.createItem (db : ItemDb) (it : ClothingItem) :
    Except StoreError (ItemDb × ClothingItem) :=
  match db.fault with
  | some e => Except.error e
  | none => Except.ok ({ db with items := db.items ++ [it] }, it)

/-- `User.findByIdAndUpdate(userId, { $push: { clothingItems: itemId } })`. -/
def ItemDb.pushUserClothingItem (db : ItemDb) (userId itemId : String) :
    Except StoreError ItemDb :=
  match db.fault with
  | some e => Except.error e
  | none =>
    Except.ok
      { db with
        users := db.users.map (fun u =>
          if u.id == userId then { u with clothingItems := u.clothingItems ++ [itemId] }
          else u) }

/-- `User.updateOne({ _id: userId }, { $pull: { clothingItems: itemId } })`:
`$pull` removes every occurrence of the reference. -/
def ItemDb.pullUserClothingItem (db : ItemDb) (userId itemId : String) :
    Except StoreError ItemDb :=
  match db.fault with
  | some e => Except.error e
  | none =>
    Except.ok
      { db with
        users := db.users.map (fun u =>
          if u.id == userId then
            { u with clothingItems := u.clothingItems.filter (fun i => !(i == itemId)) }
          else u) }

/-- The JSON body of a clothing-endpoint response. -/
inductive ResponseBody where
  | message (m : String)
  | item (it : ClothingItem)
  | itemOrNull (it : Option ClothingItem)
  | items (l : List ClothingItem)
  | noContent
deriving DecidableEq, Repr

/-- The outcome of a clothing endpoint: HTTP status, JSON body, and the
resulting store. -/
structure ItemResult where
  status : Nat
  body : ResponseBody
  db : ItemDb

/-- The filter object `getClothingItems` sends to the store. -/
def clothingListFilter (userId : String) : ClothingFilter :=
  { owner := userId }

/-- `getClothingItems` of src/controllers/clothing.controller.js: lists by
`{ owner: req.user.userId }` alone; the request query parameters are never
consulted. -/
def getClothingItems (userId : String) (_query : String → Option QueryValue)
    (db : ItemDb) : ItemResult :=
  match db.findItems (clothingListFilter userId) with
  | Except.error _ =>
    { status := HTTP_STATUS.INTERNAL_SERVER_ERROR,
      body := ResponseBody.message "Internal server error", db := db }
  | Except.ok clothingItems =>
    { status := HTTP_STATUS.OK, body := ResponseBody.items clothingItems, db := db }

/-- The result of a successful Cloudinary upload (`secure_url`, `public_id`).
The controller catch treats an upload failure like any other exception;
no claim exercises that path, so `file` carries the successful outcome. -/
structure UploadResult where
  secureUrl : String
  publicId : String
deriving DecidableEq, Repr

/-- `createClothingItem` of src/controllers/clothing.controller.js.  `newId`
is the ObjectId the store mints for the new document. -/
def createClothingItem (userId : String)
    (bodyName bodyCategory bodyColor bodyBrand : Option String)
    (file : Option UploadResult) (newId : String) (db : ItemDb) : ItemResult :=
  if isFalsy bodyName || isFalsy bodyCategory || isFalsy bodyColor then
    { status := HTTP_STATUS.BAD_REQUEST,
      body := ResponseBody.message "Name, category, and color are required", db := db }
  else
    let imageUrl := file.map (fun f => f.secureUrl)
    let imagePublicId := file.map (fun f => f.publicId)
    match db.createItem
        { id := newId, owner := userId,
          name := bodyName.getD "", category := bodyCategory.getD "",
          color := bodyColor.getD "", brand := bodyBrand,
          imageUrl := imageUrl, imagePublicId := imagePublicId } with
    | Except.error _ =>
      { status := HTTP_STATUS.INTERNAL_SERVER_ERROR,
        body := ResponseBody.message "Internal server error", db := db }
    | Except.ok (db2, newItem) =>
      match db2.pushUserClothingItem userId newItem.id with
      | Except.error _ =>
        { status := HTTP_STATUS.INTERNAL_SERVER_ERROR,
          body := ResponseBody.message "Internal server error", db := db2 }
      | Except.ok db3 =>
        { status := HTTP_STATUS.CREATED, body := ResponseBody.item newItem, db := db3 }

/-- `updateClothingItem` of src/controllers/clothing.controller.js.  The
Cloudinary destroy/upload pair touches only the external image service;
`file` carries the successful upload outcome when a file was attached. -/
def updateClothingItem (userId id : String)
    (bodyName bodyCategory bodyColor bodyBrand : Option String)
    (file : Option UploadResult) (db : ItemDb) : ItemResult :=
  let dataToUpdate : UpdateData :=
    { name := bodyName, category := bodyCategory, color := bodyColor, brand := bodyBrand }
  match db.findById id with
  | Except.error _ =>
    { status := HTTP_STATUS.INTERNAL_SERVER_ERROR,
      body := ResponseBody.message "Internal server error", db := db }
  | Except.ok none =>
    { status := HTTP_STATUS.NOT_FOUND,
      body := ResponseBody.message "Clothing item not found", db := db }
  | Except.ok (some item) =>
    if !(item.owner = userId) then
      { status := HTTP_STATUS.FORBIDDEN,
        body := ResponseBody.message "User not authorized to update this item", db := db }
    else
      let d2 :=
        match file with
        | none => dataToUpdate
        | some up =>
          { dataToUpdate with
            imageUrl := some up.secureUrl, imagePublicId := some up.publicId }
      match db.findByIdAndUpdate id d2 with
      | Except.error _ =>
        { status := HTTP_STATUS.INTERNAL_SERVER_ERROR,
          body := ResponseBody.message "Internal server error", db := db }
      | Except.ok (db2, updatedItem) =>
        { status := HTTP_STATUS.OK, body := ResponseBody.itemOrNull updatedItem, db := db2 }

/-- `deleteClothingItem` of src/controllers/clothing.controller.js (the
Cloudinary destroy call touches only the external image service). -/
def deleteClothingItem (userId id : String) (db : ItemDb) : ItemResult :=
  match db.findById id with
  | Except.error _ =>
    { status := HTTP_STATUS.INTERNAL_SERVER_ERROR,
      body := ResponseBody.message "Internal server error", db := db }
  | Except.ok none =>
    { status := HTTP_STATUS.NOT_FOUND,
      body := ResponseBody.message "Clothing item not found", db := db }
  | Except.ok (some item) =>
    if !(item.owner = userId) then
      { status := HTTP_STATUS.FORBIDDEN,
        body := ResponseBody.message "User not authorized to delete this item", db := db }
    else
      match db.findByIdAndDelete id with
      | Except.error _ =>
        { status := HTTP_STATUS.INTERNAL_SERVER_ERROR,
          body := ResponseBody.message "Internal server error", db := db }
      | Except.ok db2 =>
        match db2.pullUserClothingItem userId item.id with
        | Except.error _ =>
          { status := HTTP_STATUS.INTERNAL_SERVER_ERROR,
            body := ResponseBody.message "Internal server error", db := db2 }
        | Except.ok db3 =>
          { status := HTTP_STATUS.NO_CONTENT, body := ResponseBody.noContent, db := db3 }

/-- The reference-list integrity invariant: every user record lists exactly
the ids of the items they own, in store order. -/
def refIntegrity (db : ItemDb) : Prop :=
  ∀ u ∈ db.users,
    u.clothingItems = (db.items.filter (fun it => it.owner == u.id)).map (fun it => it.id)

/-! ## C1: listing is owner-scoped and query parameters cannot widen it -/

/-- C1: For every authenticated listing request, whatever raw query key/value
pairs the client supplies, the filter sent to the store carries
`owner == currentUser` (it is literally `{ owner: req.user.userId }`), the
response is independent of the query parameters — in particular an
`owner=<other-id>` query key has no effect — and the response never
contains an item whose owner differs from the authenticated user. -/
theorem listing_owner_scoped (userId : String)
    (query1 query2 : String → Option QueryValue) (db : ItemDb) :
    (clothingListFilter userId).owner = userId ∧
    getClothingItems userId query1 db = getClothingItems userId query2 db ∧
    ∀ l, (getClothingItems userId query1 db).body = ResponseBody.items l →
      ∀ item ∈ l, item.owner = userId := by
  refine ⟨rfl, rfl, ?_⟩
  intro l hl item hmem
  unfold getClothingItems ItemDb.findItems at hl
  cases hf : db.fault with
  | some e => rw [hf] at hl; simp at hl
  | none =>
    rw [hf] at hl
    simp only [ItemResult.mk.injEq] at hl
    injection hl with hl
    subst hl
    have := (List.mem_filter.mp hmem).2
    exact beq_iff_eq.mp this

/-- Concrete input for the C1 and C2 listing theorems. -/
def itemPants : ClothingItem :=
  { id := "i1", owner := "u1", name := "Jeans", category := "PANTS", color := "Blue" }

/-- Concrete second item, owned by a different user. -/
def itemOther : ClothingItem :=
  { id := "i2", owner := "u2", name := "Coat", category := "JACKET", color := "Black" }

/-- A concrete store holding one item of user u1 and one item of user u2. -/
def dbListing : ItemDb :=
  { items := [itemPants, itemOther], users := [], validId := fun _ => true }

/-- A query attempting to widen the listing scope with an owner key. -/
def qOwnerAttack : String → Option QueryValue :=
  fun k => if k = "owner" then some (QueryValue.str "u2") else none

/-- The empty query. -/
def qEmpty : String → Option QueryValue := fun _ => none

/-- Witness for C1 at a concrete store and an `owner=u2` query. -/
theorem listing_owner_scoped_witness :
    (clothingListFilter "u1").owner = "u1" ∧
    getClothingItems "u1" qOwnerAttack dbListing = getClothingItems "u1" qEmpty dbListing ∧
    itemPants.owner = "u1" :=
  ⟨(listing_owner_scoped "u1" qOwnerAttack qEmpty dbListing).1,
   (listing_owner_scoped "u1" qOwnerAttack qEmpty dbListing).2.1,
   (listing_owner_scoped "u1" qOwnerAttack qEmpty dbListing).2.2
     [itemPants] rfl itemPants (by decide)⟩

/-! ## C2: the category query filter is not implemented by the controller -/

/-- The `category=shirt` query of the claim. -/
def qCategoryShirt : String → Option QueryValue :=
  fun k => if k = "category" then some (QueryValue.str "shirt") else none

/-- C2: evaluation of `getClothingItems` at the failing input of the claim:
with query `category=shirt` the response still contains the requester item
whose canonical category is `PANTS`, because the controller never consults
the query parameters — the listing result for `category=shirt` is
identical to the unfiltered listing, contradicting the claimed category
filtering (which the test suite in
src/__tests__/clothing.controller.test.js asserts). -/
theorem listing_category_query_ignored :
    (getClothingItems "u1" qCategoryShirt dbListing).body =
      ResponseBody.items [itemPants] ∧
    itemPants.category = "PANTS" ∧
    getClothingItems "u1" qCategoryShirt dbListing =
      getClothingItems "u1" qEmpty dbListing :=
  ⟨rfl, rfl, rfl⟩

/-! ## C4: login does not distinguish unknown email from wrong password -/

/-- C4: with both credentials present, the response for an unknown email and
the response for a known email with a failing password comparison are the
identical client-observable response: status 401, body message
`Invalid credentials`, no userId, no cookie effects; in both cases the
user store is left unchanged. -/
theorem login_no_enumeration (env : Env) (now : Nat)
    (compare : String → String → Bool) (usersA usersB : List User)
    (email password : Option String)
    (he : isFalsy email = false) (hp : isFalsy password = false)
    (user : User)
    (hA : usersA.find? (fun u => u.email == email.getD "") = some user)
    (hc : compare (password.getD "") user.password = false)
    (hB : usersB.find? (fun u => u.email == email.getD "") = none) :
    (login env now compare usersA email password).client =
      (login env now compare usersB email password).client ∧
    (login env now compare usersA email password).client =
      { status := 401, message := "Invalid credentials", userId := none,
        setAccessCookie := none, setRefreshCookie := none,
        clearedAccessCookie := false, clearedRefreshCookie := false } ∧
    (login env now compare usersA email password).users = usersA ∧
    (login env now compare usersB email password).users = usersB := by
  simp [login, he, hp, hA, hB, hc, AuthResult.client, HTTP_STATUS.UNAUTHORIZED]

/-- A concrete user record for the auth witnesses. -/
def userAlice : User :=
  { id := "u1", email := "alice@example.com", password := "hashedPassword" }

/-- A toy bcrypt.compare: candidate matches iff it equals the stored hash. -/
def compareToy : String → String → Bool := fun candidate stored => candidate == stored

/-- The environment of the witnesses: distinct access and refresh secrets. -/
def envW : Env := { JWT_SECRET := "accessSecret", JWT_REFRESH_SECRET := "refreshSecret" }

/-- Witness for C4: the wrong-password response on a present user equals the
missing-user response at a concrete input. -/
theorem login_no_enumeration_witness :
    (login envW 0 compareToy [userAlice] (some "alice@example.com") (some "wrong")).client =
      (login envW 0 compareToy [] (some "alice@example.com") (some "wrong")).client ∧
    (login envW 0 compareToy [userAlice] (some "alice@example.com") (some "wrong")).client =
      { status := 401, message := "Invalid credentials", userId := none,
        setAccessCookie := none, setRefreshCookie := none,
        clearedAccessCookie := false, clearedRefreshCookie := false } :=
  ⟨(login_no_enumeration envW 0 compareToy [userAlice] []
      (some "alice@example.com") (some "wrong") (by decide) (by decide)
      userAlice (by decide) (by decide) (by decide)).1,
   (login_no_enumeration envW 0 compareToy [userAlice] []
      (some "alice@example.com") (some "wrong") (by decide) (by decide)
      userAlice (by decide) (by decide) (by decide)).2.1⟩

/-! ## C7: logout always succeeds and clears both cookies -/

/-- C7: for every logout request — with or without a refresh cookie, and even
when the persistence step clearing the stored fingerprint fails — the
operation responds 200 with the success message and clears both cookies;
a persistence failure is swallowed (the store is then simply left
unchanged) and never surfaces in the response. -/
theorem logout_always_succeeds (users : List User) (cookie : Option TokenValue)
    (dbFailure : Bool) :
    (logout users cookie dbFailure).status = 200 ∧
    (logout users cookie dbFailure).message = "Logged out successfully" ∧
    (logout users cookie dbFailure).clearedAccessCookie = true ∧
    (logout users cookie dbFailure).clearedRefreshCookie = true ∧
    (dbFailure = true → (logout users cookie dbFailure).users = users) := by
  refine ⟨rfl, rfl, rfl, rfl, ?_⟩
  intro hfail
  subst hfail
  unfold logout
  cases cookie with
  | none => rfl
  | some tok => cases htf : tokenFalsy tok <;> simp [htf]

/-- A concrete refresh token for the logout witness. -/
def tokenW : TokenValue :=
  TokenValue.jwt { userId := "u1", secret := "refreshSecret", exp := 100 }

/-- Witness for C7 at a concrete store, cookie present, persistence failing. -/
theorem logout_always_succeeds_witness :
    (logout [userAlice] (some tokenW) true).status = 200 ∧
    (logout [userAlice] (some tokenW) true).clearedAccessCookie = true ∧
    (logout [userAlice] (some tokenW) true).clearedRefreshCookie = true ∧
    (logout [userAlice] (some tokenW) true).users = [userAlice] :=
  ⟨(logout_always_succeeds [userAlice] (some tokenW) true).1,
   (logout_always_succeeds [userAlice] (some tokenW) true).2.2.1,
   (logout_always_succeeds [userAlice] (some tokenW) true).2.2.2.1,
   (logout_always_succeeds [userAlice] (some tokenW) true).2.2.2.2 rfl⟩

/-! ## C9: the access guard -/

/-- C9 counterexample: at a concrete request with no access cookie the guard
denies with body message `No token provided, authorization denied`, not
with the message `No token provided` stated by the claim. -/
theorem protect_missing_token_message_counterexample :
    protect { JWT_SECRET := "accessSecret", JWT_REFRESH_SECRET := "refreshSecret" }
        0 none (some "Bearer sometoken") =
      ProtectResult.denied
        { status := 401, message := "No token provided, authorization denied" } ∧
    ¬ protect { JWT_SECRET := "accessSecret", JWT_REFRESH_SECRET := "refreshSecret" }
        0 none (some "Bearer sometoken") =
      ProtectResult.denied { status := 401, message := "No token provided" } :=
  ⟨rfl, by decide⟩

/-- C9 (amended): the guard reads the token only from the accessToken cookie
(its result never depends on the Authorization header); a missing or empty
cookie is denied with 401 and the message
`No token provided, authorization denied`; and every token failing
verification — expired or structurally malformed alike — is denied with
the identical 401 response with message `Token is not valid`. -/
theorem protect_guard (env : Env) (now : Nat) (cookie : Option TokenValue)
    (header1 header2 : Option String) :
    protect env now cookie header1 = protect env now cookie header2 ∧
    protect env now none header1 =
      ProtectResult.denied
        { status := 401, message := "No token provided, authorization denied" } ∧
    protect env now (some (TokenValue.malformed "")) header1 =
      ProtectResult.denied
        { status := 401, message := "No token provided, authorization denied" } ∧
    (∀ tok, tokenFalsy tok = false → jwtVerify now tok env.JWT_SECRET = none →
      protect env now (some tok) header1 =
        ProtectResult.denied { status := 401, message := "Token is not valid" }) ∧
    (∀ t : Jwt, ¬ now < t.exp →
      protect env now (some (TokenValue.jwt t)) header1 =
        ProtectResult.denied { status := 401, message := "Token is not valid" }) ∧
    (∀ s : String, s.isEmpty = false →
      protect env now (some (TokenValue.malformed s)) header1 =
        ProtectResult.denied { status := 401, message := "Token is not valid" }) := by
  refine ⟨rfl, rfl, rfl, ?_, ?_, ?_⟩
  · intro tok htf hv
    simp [protect, htf, hv, HTTP_STATUS.UNAUTHORIZED]
  · intro t hexp
    simp [protect, tokenFalsy, jwtVerify, hexp, HTTP_STATUS.UNAUTHORIZED]
  · intro s hs
    simp [protect, tokenFalsy, jwtVerify, hs, HTTP_STATUS.UNAUTHORIZED]

/-- Witness for C9 (amended): expired and malformed tokens at concrete inputs
produce the identical denial, and the guard ignores the header. -/
theorem protect_guard_witness :
    protect envW 50 (some (TokenValue.jwt { userId := "u1", secret := "accessSecret", exp := 20 }))
        (some "Bearer x") =
      ProtectResult.denied { status := 401, message := "Token is not valid" } ∧
    protect envW 50 (some (TokenValue.malformed "garbage")) (some "Bearer x") =
      ProtectResult.denied { status := 401, message := "Token is not valid" } ∧
    protect envW 50 none (some "Bearer x") = protect envW 50 none none :=
  ⟨(protect_guard envW 50 none (some "Bearer x") none).2.2.2.2.1
      { userId := "u1", secret := "accessSecret", exp := 20 } (by decide),
   (protect_guard envW 50 none (some "Bearer x") none).2.2.2.2.2 "garbage" (by decide),
   (protect_guard envW 50 none (some "Bearer x") none).1⟩

/-! ## C3: store-error reclassification at the boundary -/

/-- A store whose ObjectId check rejects every id (so `findById` throws a
`CastError` on any lookup). -/
def dbBadId : ItemDb :=
  { items := [], users := [], validId := fun _ => false }

/-- C3 counterexample: at the concrete input of a badly formatted item id
passed to update (and to delete), the store raises a `CastError`, yet the
response status is 500, not the 404 stated by the claim. -/
theorem item_ops_castError_counterexample :
    dbBadId.findById "bad*id" = Except.error castError ∧
    castError.name = "CastError" ∧
    (updateClothingItem "u1" "bad*id" none none none none none dbBadId).status = 500 ∧
    ¬ (updateClothingItem "u1" "bad*id" none none none none none dbBadId).status = 404 ∧
    (deleteClothingItem "u1" "bad*id" dbBadId).status = 500 ∧
    ¬ (deleteClothingItem "u1" "bad*id" dbBadId).status = 404 :=
  ⟨rfl, rfl, rfl, by decide, rfl, by decide⟩

/-- C3 (amended): the classification the spec describes lives in
`handleDatabaseError` (ValidationError to 400, CastError to 404, anything
else to 500) and that helper hides raw store error types, but it is only
applied at the auth boundary; the item operations map every store-layer
exception — including a malformed-identifier CastError on update or
delete — to a 500 response with body `Internal server error`, so no raw
store error type is surfaced there either. -/
theorem store_error_boundary (e : StoreError) (userId id : String)
    (bn bc bco bb : Option String) (file : Option UploadResult)
    (db db2 : ItemDb) (hfault : db.fault = some e)
    (hok : db2.fault = none) (hbad : db2.validId id = false) :
    (e.name = "ValidationError" →
      handleDatabaseError e = { status := 400, message := "Validation error" }) ∧
    (e.name = "CastError" →
      handleDatabaseError e = { status := 404, message := "Resource not found" }) ∧
    (e.name ≠ "ValidationError" → e.name ≠ "CastError" →
      handleDatabaseError e = { status := 500, message := "Internal server error" }) ∧
    updateClothingItem userId id bn bc bco bb file db =
      { status := 500, body := ResponseBody.message "Internal server error", db := db } ∧
    deleteClothingItem userId id db =
      { status := 500, body := ResponseBody.message "Internal server error", db := db } ∧
    updateClothingItem userId id bn bc bco bb file db2 =
      { status := 500, body := ResponseBody.message "Internal server error", db := db2 } ∧
    deleteClothingItem userId id db2 =
      { status := 500, body := ResponseBody.message "Internal server error", db := db2 } := by
  refine ⟨?_, ?_, ?_, ?_, ?_, ?_, ?_⟩
  · intro h
    simp [handleDatabaseError, h, HTTP_STATUS.BAD_REQUEST, ERROR_MESSAGES.VALIDATION_ERROR]
  · intro h
    simp [handleDatabaseError, h, HTTP_STATUS.NOT_FOUND, ERROR_MESSAGES.NOT_FOUND]
  · intro h1 h2
    simp [handleDatabaseError, h1, h2, HTTP_STATUS.INTERNAL_SERVER_ERROR,
      ERROR_MESSAGES.INTERNAL_SERVER_ERROR]
  · simp [updateClothingItem, ItemDb.findById, hfault, HTTP_STATUS.INTERNAL_SERVER_ERROR]
  · simp [deleteClothingItem, ItemDb.findById, hfault, HTTP_STATUS.INTERNAL_SERVER_ERROR]
  · simp [updateClothingItem, ItemDb.findById, hok, hbad, HTTP_STATUS.INTERNAL_SERVER_ERROR]
  · simp [deleteClothingItem, ItemDb.findById, hok, hbad, HTTP_STATUS.INTERNAL_SERVER_ERROR]

/-- A store failing every call with a network error. -/
def dbFaulted : ItemDb :=
  { items := [], users := [], validId := fun _ => true,
    fault := some { name := "MongoNetworkError", message := "connection lost" } }

/-- A store failing every call with a CastError. -/
def dbFaultedCast : ItemDb :=
  { items := [], users := [], validId := fun _ => true,
    fault := some { name := "CastError", message := "bad id" } }

/-- Witness for C3 (amended) at concrete stores and errors. -/
theorem store_error_boundary_witness :
    handleDatabaseError { name := "CastError", message := "bad id" } =
      { status := 404, message := "Resource not found" } ∧
    handleDatabaseError { name := "MongoNetworkError", message := "connection lost" } =
      { status := 500, message := "Internal server error" } ∧
    (updateClothingItem "u1" "i9" none none none none none dbFaulted).status = 500 ∧
    (deleteClothingItem "u1" "bad*id" dbBadId).status = 500 :=
  ⟨(store_error_boundary { name := "CastError", message := "bad id" } "u1" "i9"
      none none none none none dbFaultedCast dbBadId rfl rfl rfl).2.1 rfl,
   (store_error_boundary { name := "MongoNetworkError", message := "connection lost" }
      "u1" "i9" none none none none none dbFaulted dbBadId rfl rfl rfl).2.2.1
      (by decide) (by decide),
   congrArg ItemResult.status
     (store_error_boundary { name := "MongoNetworkError", message := "connection lost" }
      "u1" "i9" none none none none none dbFaulted dbBadId rfl rfl rfl).2.2.2.1,
   congrArg ItemResult.status
     (store_error_boundary { name := "MongoNetworkError", message := "connection lost" }
      "u1" "bad*id" none none none none none dbFaulted dbBadId rfl rfl rfl).2.2.2.2.2.2⟩

/-! ## C6: refresh sets only a new access cookie and changes nothing else -/

/-- C6: for every successful refresh request (signature and expiry verified,
user found, stored fingerprint matching), the result sets only the
accessToken cookie, carrying a freshly signed access token with the
15-minute validity; the refreshToken cookie is not re-set, no cookie is
cleared, and the user store — in particular the stored refresh-token
fingerprint — is left unchanged. -/
theorem refresh_frame (env : Env) (now : Nat) (users : List User)
    (tok : TokenValue) (uid : String) (user : User)
    (hv : jwtVerify now tok env.JWT_REFRESH_SECRET = some uid)
    (hfind : users.find? (fun u => u.id == uid) = some user)
    (hmatch : user.refreshToken = some (hashToken tok)) :
    refresh env now users (some tok) =
      { status := 200, message := "Token refreshed successfully", userId := none,
        setAccessCookie := some (jwtSign user.id env.JWT_SECRET now ACCESS_TOKEN_MAX_AGE),
        setRefreshCookie := none, clearedAccessCookie := false,
        clearedRefreshCookie := false, users := users } := by
  cases tok with
  | malformed s => simp [jwtVerify] at hv
  | jwt t =>
    simp [refresh, tokenFalsy, hv, hfind, hmatch, HTTP_STATUS.OK]

/-- The concrete refresh token of the refresh witnesses, signed with the
refresh secret of `envW` and expiring at instant 100. -/
def tokenRefreshW : TokenValue :=
  TokenValue.jwt { userId := "u1", secret := "refreshSecret", exp := 100 }

/-- Alice with an active session whose stored fingerprint matches
`tokenRefreshW`. -/
def userAliceSession : User :=
  { id := "u1", email := "alice@example.com", password := "hashedPassword",
    refreshToken := some (hashToken tokenRefreshW) }

/-- Witness for C6 at a concrete store and refresh cookie. -/
theorem refresh_frame_witness :
    refresh envW 50 [userAliceSession] (some tokenRefreshW) =
      { status := 200, message := "Token refreshed successfully", userId := none,
        setAccessCookie := some (jwtSign "u1" "accessSecret" 50 ACCESS_TOKEN_MAX_AGE),
        setRefreshCookie := none, clearedAccessCookie := false,
        clearedRefreshCookie := false, users := [userAliceSession] } :=
  refresh_frame envW 50 [userAliceSession] tokenRefreshW "u1" userAliceSession
    (by decide) (by decide) rfl

/-! ## C8: update/delete ownership guard -/

/-- C8: for every update or delete request on a (well-formed) item id against
a healthy store: when no item carries the id the operation responds 404
`Clothing item not found` and leaves the store untouched; when the item
exists but its stored owner reference differs from the authenticated user
id — the only comparison performed — the operation responds 403 with the
authorization message and leaves the store (hence the item) unmodified. -/
theorem mutation_ownership_guard (userId id : String) (db : ItemDb)
    (bn bc bco bb : Option String) (file : Option UploadResult)
    (hfault : db.fault = none) (hvalid : db.validId id = true) :
    (db.items.find? (fun it => it.id == id) = none →
      updateClothingItem userId id bn bc bco bb file db =
        { status := 404, body := ResponseBody.message "Clothing item not found",
          db := db } ∧
      deleteClothingItem userId id db =
        { status := 404, body := ResponseBody.message "Clothing item not found",
          db := db }) ∧
    (∀ item, db.items.find? (fun it => it.id == id) = some item →
      ¬ item.owner = userId →
      updateClothingItem userId id bn bc bco bb file db =
        { status := 403,
          body := ResponseBody.message "User not authorized to update this item",
          db := db } ∧
      deleteClothingItem userId id db =
        { status := 403,
          body := ResponseBody.message "User not authorized to delete this item",
          db := db }) := by
  constructor
  · intro hnone
    constructor
    · simp [updateClothingItem, ItemDb.findById, hfault, hvalid, hnone,
        HTTP_STATUS.NOT_FOUND]
    · simp [deleteClothingItem, ItemDb.findById, hfault, hvalid, hnone,
        HTTP_STATUS.NOT_FOUND]
  · intro item hsome howner
    constructor
    · simp [updateClothingItem, ItemDb.findById, hfault, hvalid, hsome, howner,
        HTTP_STATUS.FORBIDDEN]
    · simp [deleteClothingItem, ItemDb.findById, hfault, hvalid, hsome, howner,
        HTTP_STATUS.FORBIDDEN]

/-- A store holding one item owned by user u2. -/
def dbOwnership : ItemDb :=
  { items := [itemOther], users := [], validId := fun _ => true }

/-- Witness for C8: user u1 hitting a missing id gets 404; user u1 hitting
the item of user u2 gets 403, with the store unchanged in both cases. -/
theorem mutation_ownership_guard_witness :
    (updateClothingItem "u1" "missing" none none none none none dbOwnership =
      { status := 404, body := ResponseBody.message "Clothing item not found",
        db := dbOwnership }) ∧
    (deleteClothingItem "u1" "i2" dbOwnership =
      { status := 403,
        body := ResponseBody.message "User not authorized to delete this item",
        db := dbOwnership }) :=
  ⟨((mutation_ownership_guard "u1" "missing" dbOwnership none none none none none
      rfl rfl).1 (by decide)).1,
   ((mutation_ownership_guard "u1" "i2" dbOwnership none none none none none
      rfl rfl).2 itemOther (by decide) (by decide)).2⟩

/-! ## C5: the second refresh barrier and revocation by logout -/

/-- Helper for C5: once the cookie passes signature and expiry verification,
the refresh request still fails 401 whenever the referenced user is absent
or the stored fingerprint differs from the digest of the presented
token. -/
theorem refresh_fails_of_hash_mismatch (env : Env) (now : Nat)
    (users : List User) (tok : TokenValue) (uid : String)
    (hv : jwtVerify now tok env.JWT_REFRESH_SECRET = some uid)
    (hno : ∀ user, users.find? (fun u => u.id == uid) = some user →
      ¬ user.refreshToken = some (hashToken tok)) :
    refresh env now users (some tok) =
      { status := 401, message := "Invalid refresh token", users := users } := by
  cases tok with
  | malformed s => simp [jwtVerify] at hv
  | jwt t =>
    cases hfind : users.find? (fun u => u.id == uid) with
    | none => simp [refresh, tokenFalsy, hv, hfind, HTTP_STATUS.UNAUTHORIZED]
    | some user =>
      have hne := hno user hfind
      simp [refresh, tokenFalsy, hv, hfind, hne, HTTP_STATUS.UNAUTHORIZED]

/-- Helper for C5: after the stored digest is set on the users carrying `uid`
and then unset by digest lookup, the first user found under `uid` holds no
stored digest — provided no user already held that digest beforehand. -/
theorem unset_after_set_clears_first (uid : String) (h : Digest) :
    ∀ users : List User, (∀ u ∈ users, ¬ u.refreshToken = some h) →
      ∀ user,
        (unsetRefreshTokenByHash (setRefreshTokenHash users uid h) h).find?
          (fun u => u.id == uid) = some user →
        user.refreshToken = none := by
  intro users
  induction users with
  | nil =>
    intro _ user hfind
    simp [setRefreshTokenHash, unsetRefreshTokenByHash] at hfind
  | cons u rest ih =>
    intro hfresh user hfind
    have hfreshu : ¬ u.refreshToken = some h := hfresh u (by simp)
    have hfreshr : ∀ x ∈ rest, ¬ x.refreshToken = some h :=
      fun x hx => hfresh x (by simp [hx])
    simp only [setRefreshTokenHash, List.map_cons] at hfind
    by_cases hc : u.id = uid
    · subst hc
      simp [unsetRefreshTokenByHash, List.find?_cons] at hfind
      subst hfind
      rfl
    · have hcb : (u.id == uid) = false := by simp [hc]
      simp [hcb, unsetRefreshTokenByHash, if_neg hfreshu, List.find?_cons] at hfind
      have ih2 := ih hfreshr user
      simp only [setRefreshTokenHash] at ih2
      simp at ih2
      exact ih2 hfind

/-- C5: for every refresh request whose cookie passes signature and expiry
verification, the request still fails 401 `Invalid refresh token` whenever
the referenced user is absent or the fingerprint of the presented token
differs from the stored one; in particular, after a successful login
followed by a logout, a refresh with the old cookie — still carrying a
valid signature and unexpired — fails with 401. -/
theorem refresh_revocation_barrier (env : Env) (now now2 : Nat)
    (users usersS : List User) (tok : TokenValue) (uid : String)
    (compare : String → String → Bool) (email password : Option String) (user : User)
    (hv : jwtVerify now2 tok env.JWT_REFRESH_SECRET = some uid)
    (hno : ∀ u2, users.find? (fun u => u.id == uid) = some u2 →
      ¬ u2.refreshToken = some (hashToken tok))
    (he : isFalsy email = false) (hp : isFalsy password = false)
    (hfind : usersS.find? (fun u => u.email == email.getD "") = some user)
    (hcmp : compare (password.getD "") user.password = true)
    (hfresh : ∀ u ∈ usersS, ¬ u.refreshToken =
      some (hashToken (jwtSign user.id env.JWT_REFRESH_SECRET now REFRESH_TOKEN_MAX_AGE)))
    (hexp : now2 < now + REFRESH_TOKEN_MAX_AGE) :
    refresh env now2 users (some tok) =
      { status := 401, message := "Invalid refresh token", users := users } ∧
    ∀ tok1, (login env now compare usersS email password).setRefreshCookie = some tok1 →
      (refresh env now2
        (logout (login env now compare usersS email password).users (some tok1) false).users
        (some tok1)).status = 401 ∧
      (refresh env now2
        (logout (login env now compare usersS email password).users (some tok1) false).users
        (some tok1)).message = "Invalid refresh token" := by
  constructor
  · exact refresh_fails_of_hash_mismatch env now2 users tok uid hv hno
  · have hlogin : login env now compare usersS email password =
        { status := 200, message := "Login successful", userId := some user.id,
          setAccessCookie := some (jwtSign user.id env.JWT_SECRET now ACCESS_TOKEN_MAX_AGE),
          setRefreshCookie :=
            some (jwtSign user.id env.JWT_REFRESH_SECRET now REFRESH_TOKEN_MAX_AGE),
          users := setRefreshTokenHash usersS user.id
            (hashToken (jwtSign user.id env.JWT_REFRESH_SECRET now REFRESH_TOKEN_MAX_AGE)) } := by
      simp [login, he, hp, hfind, hcmp, HTTP_STATUS.OK]
    intro tok1 htok1
    rw [hlogin] at htok1
    simp only [Option.some.injEq] at htok1
    subst htok1
    rw [hlogin]
    have hlogoutUsers :
        (logout
          (setRefreshTokenHash usersS user.id
            (hashToken (jwtSign user.id env.JWT_REFRESH_SECRET now REFRESH_TOKEN_MAX_AGE)))
          (some (jwtSign user.id env.JWT_REFRESH_SECRET now REFRESH_TOKEN_MAX_AGE))
          false).users =
        unsetRefreshTokenByHash
          (setRefreshTokenHash usersS user.id
            (hashToken (jwtSign user.id env.JWT_REFRESH_SECRET now REFRESH_TOKEN_MAX_AGE)))
          (hashToken (jwtSign user.id env.JWT_REFRESH_SECRET now REFRESH_TOKEN_MAX_AGE)) := by
      simp [logout, jwtSign, tokenFalsy]
    rw [hlogoutUsers]
    have hv2 : jwtVerify now2
        (jwtSign user.id env.JWT_REFRESH_SECRET now REFRESH_TOKEN_MAX_AGE)
        env.JWT_REFRESH_SECRET = some user.id := by
      simp [jwtVerify, jwtSign, hexp]
    have hno2 : ∀ u2,
        (unsetRefreshTokenByHash
          (setRefreshTokenHash usersS user.id
            (hashToken (jwtSign user.id env.JWT_REFRESH_SECRET now REFRESH_TOKEN_MAX_AGE)))
          (hashToken (jwtSign user.id env.JWT_REFRESH_SECRET now
            REFRESH_TOKEN_MAX_AGE))).find? (fun u => u.id == user.id) = some u2 →
        ¬ u2.refreshToken =
          some (hashToken (jwtSign user.id env.JWT_REFRESH_SECRET now
            REFRESH_TOKEN_MAX_AGE)) := by
      intro u2 hf2
      have hcleared := unset_after_set_clears_first user.id
        (hashToken (jwtSign user.id env.JWT_REFRESH_SECRET now REFRESH_TOKEN_MAX_AGE))
        usersS hfresh u2 hf2
      rw [hcleared]
      simp
    rw [refresh_fails_of_hash_mismatch env now2 _
      (jwtSign user.id env.JWT_REFRESH_SECRET now REFRESH_TOKEN_MAX_AGE)
      user.id hv2 hno2]
    exact ⟨rfl, rfl⟩

/-- An unexpired refresh token for user u1, signed with the right secret but
not the one whose digest `userAliceSession` stores. -/
def tokenStale : TokenValue :=
  TokenValue.jwt { userId := "u1", secret := "refreshSecret", exp := 80 }

/-- The refresh token minted by `login envW 0 ... userAlice ...`. -/
def tokenMinted : TokenValue :=
  jwtSign "u1" "refreshSecret" 0 REFRESH_TOKEN_MAX_AGE

/-- Witness for C5: a verified but mismatching token is rejected at a concrete
store, and login then logout then refresh with the old cookie yields 401. -/
theorem refresh_revocation_barrier_witness :
    refresh envW 5 [userAliceSession] (some tokenStale) =
      { status := 401, message := "Invalid refresh token",
        users := [userAliceSession] } ∧
    (refresh envW 5
      (logout (login envW 0 compareToy [userAlice]
          (some "alice@example.com") (some "hashedPassword")).users
        (some tokenMinted) false).users
      (some tokenMinted)).status = 401 :=
  ⟨(refresh_revocation_barrier envW 0 5 [userAliceSession] [userAlice] tokenStale "u1"
      compareToy (some "alice@example.com") (some "hashedPassword") userAlice
      (by decide)
      (by
        intro u2 h2
        have h3 : some userAliceSession = some u2 := h2
        injection h3 with h3
        subst h3
        decide)
      (by decide) (by decide) (by decide) (by decide) (by decide) (by decide)).1,
   ((refresh_revocation_barrier envW 0 5 [userAliceSession] [userAlice] tokenStale "u1"
      compareToy (some "alice@example.com") (some "hashedPassword") userAlice
      (by decide)
      (by
        intro u2 h2
        have h3 : some userAliceSession = some u2 := h2
        injection h3 with h3
        subst h3
        decide)
      (by decide) (by decide) (by decide) (by decide) (by decide) (by decide)).2
     tokenMinted (by decide)).1⟩

/-! ## C10: create and delete preserve reference-list integrity -/

/-- C10: a successful create appends the new item id to the authenticated
owner reference list (the store push of `createClothingItem`), mirroring
the pruning of delete; consequently, on a healthy store whose item ids are
distinct, both a successful create and a successful owner delete preserve
the invariant that every user reference list holds exactly the ids of
their created-and-not-yet-deleted items. -/
theorem reference_list_integrity (userId newId id : String)
    (bn bc bco bb : Option String) (file : Option UploadResult)
    (db : ItemDb) (item : ClothingItem)
    (hfault : db.fault = none)
    (hn : isFalsy bn = false) (hcat : isFalsy bc = false) (hcol : isFalsy bco = false)
    (hvalid : db.validId id = true)
    (hfind : db.items.find? (fun it => it.id == id) = some item)
    (howner : item.owner = userId)
    (hnodup : (db.items.map (fun it => it.id)).Nodup)
    (hinv : refIntegrity db) :
    ((createClothingItem userId bn bc bco bb file newId db).status = 201 ∧
      (createClothingItem userId bn bc bco bb file newId db).db.users =
        db.users.map (fun u =>
          if u.id == userId then { u with clothingItems := u.clothingItems ++ [newId] }
          else u) ∧
      refIntegrity (createClothingItem userId bn bc bco bb file newId db).db) ∧
    ((deleteClothingItem userId id db).status = 204 ∧
      refIntegrity (deleteClothingItem userId id db).db) := by
  have hcreate : createClothingItem userId bn bc bco bb file newId db =
      { status := 201,
        body := ResponseBody.item
          { id := newId, owner := userId, name := bn.getD "", category := bc.getD "",
            color := bco.getD "", brand := bb,
            imageUrl := file.map (fun f => f.secureUrl),
            imagePublicId := file.map (fun f => f.publicId) },
        db :=
          { db with
            items := db.items ++
              [{ id := newId, owner := userId, name := bn.getD "",
                 category := bc.getD "", color := bco.getD "", brand := bb,
                 imageUrl := file.map (fun f => f.secureUrl),
                 imagePublicId := file.map (fun f => f.publicId) }],
            users := db.users.map (fun u =>
              if u.id == userId then
                { u with clothingItems := u.clothingItems ++ [newId] }
              else u) } } := by
    simp [createClothingItem, ItemDb.createItem, ItemDb.pushUserClothingItem,
      hfault, hn, hcat, hcol, HTTP_STATUS.CREATED]
  have hid : item.id = id := by
    have := List.find?_some hfind
    simpa using this
  have hmemitem : item ∈ db.items := List.mem_of_find?_eq_some hfind
  have huniq : ∀ it2 ∈ db.items, it2.id = id → it2 = item := by
    intro it2 h2 hid2
    exact List.inj_on_of_nodup_map hnodup h2 hmemitem (by simp [hid2, hid])
  have hdelete : deleteClothingItem userId id db =
      { status := 204, body := ResponseBody.noContent,
        db :=
          { db with
            items := db.items.filter (fun it => !(it.id == id)),
            users := db.users.map (fun u =>
              if u.id == userId then
                { u with
                  clothingItems := u.clothingItems.filter (fun i => !(i == item.id)) }
              else u) } } := by
    simp [deleteClothingItem, ItemDb.findById, ItemDb.findByIdAndDelete,
      ItemDb.pullUserClothingItem, hfault, hvalid, hfind, howner,
      HTTP_STATUS.NO_CONTENT]
  refine ⟨⟨by rw [hcreate], by rw [hcreate], ?_⟩, by rw [hdelete], ?_⟩
  · rw [hcreate]
    intro u hu
    simp only [List.mem_map] at hu
    obtain ⟨u0, hu0, rfl⟩ := hu
    by_cases hc : u0.id = userId
    · have hcb : (u0.id == userId) = true := beq_iff_eq.mpr hc
      rw [if_pos hcb]
      simp only [List.filter_append, List.map_append]
      have hnew : (userId == u0.id) = true := beq_iff_eq.mpr hc.symm
      simp [hinv u0 hu0, hnew]
    · have hcb : (u0.id == userId) = false := beq_eq_false_iff_ne.mpr hc
      rw [if_neg (by simp [hcb])]
      simp only [List.filter_append, List.map_append]
      have hnew : (userId == u0.id) = false :=
        beq_eq_false_iff_ne.mpr (fun h2 => hc h2.symm)
      simp [hinv u0 hu0, hnew]
  · rw [hdelete]
    intro u hu
    simp only [List.mem_map] at hu
    obtain ⟨u0, hu0, rfl⟩ := hu
    by_cases hc : u0.id = userId
    · have hcb : (u0.id == userId) = true := beq_iff_eq.mpr hc
      rw [if_pos hcb]
      show u0.clothingItems.filter (fun i => !(i == item.id)) = _
      rw [hinv u0 hu0, hid, List.filter_map, List.filter_filter, List.filter_filter]
      refine congrArg _ (List.filter_congr ?_)
      intro x _
      simp [Function.comp, Bool.and_comm]
    · have hcb : (u0.id == userId) = false := beq_eq_false_iff_ne.mpr hc
      rw [if_neg (by simp [hcb])]
      rw [List.filter_filter]
      have hptw : ∀ x ∈ db.items,
          ((x.owner == u0.id) && !(x.id == id)) = (x.owner == u0.id) := by
        intro x hx
        by_cases hxid : x.id = id
        · have hxeq : x = item := huniq x hx hxid
          subst hxeq
          have hof : (x.owner == u0.id) = false := by
            rw [howner]
            exact beq_eq_false_iff_ne.mpr (fun h2 => hc h2.symm)
          simp [hof]
        · have hne : (x.id == id) = false := beq_eq_false_iff_ne.mpr hxid
          simp [hne]
      rw [List.filter_congr hptw]
      exact hinv u0 hu0

/-- An item of user u1 for the integrity witness. -/
def itemShirtU1 : ClothingItem :=
  { id := "i1", owner := "u1", name := "Shirt", category := "SHIRT", color := "Blue" }

/-- A second item of user u1 for the integrity witness. -/
def itemPantsU1 : ClothingItem :=
  { id := "i2", owner := "u1", name := "Jeans", category := "PANTS", color := "Red" }

/-- The owner record of the integrity witness, referencing both items. -/
def userOwner : User :=
  { id := "u1", email := "alice@example.com", password := "pw",
    clothingItems := ["i1", "i2"] }

/-- A store satisfying the reference-list invariant. -/
def dbInv : ItemDb :=
  { items := [itemShirtU1, itemPantsU1], users := [userOwner],
    validId := fun _ => true }

/-- Witness for C10 at a concrete invariant-satisfying store: creating item
i3 and deleting item i2 both succeed and preserve the invariant. -/
theorem reference_list_integrity_witness :
    (createClothingItem "u1" (some "Hat") (some "HAT") (some "Black")
      none none "i3" dbInv).status = 201 ∧
    refIntegrity (createClothingItem "u1" (some "Hat") (some "HAT") (some "Black")
      none none "i3" dbInv).db ∧
    (deleteClothingItem "u1" "i2" dbInv).status = 204 ∧
    refIntegrity (deleteClothingItem "u1" "i2" dbInv).db :=
  ⟨(reference_list_integrity "u1" "i3" "i2" (some "Hat") (some "HAT") (some "Black")
      none none dbInv itemPantsU1 rfl (by decide) (by decide) (by decide) rfl
      (by decide) rfl (by decide) (by unfold refIntegrity; decide)).1.1,
   (reference_list_integrity "u1" "i3" "i2" (some "Hat") (some "HAT") (some "Black")
      none none dbInv itemPantsU1 rfl (by decide) (by decide) (by decide) rfl
      (by decide) rfl (by decide) (by unfold refIntegrity; decide)).1.2.2,
   (reference_list_integrity "u1" "i3" "i2" (some "Hat") (some "HAT") (some "Black")
      none none dbInv itemPantsU1 rfl (by decide) (by decide) (by decide) rfl
      (by decide) rfl (by decide) (by unfold refIntegrity; decide)).2.1,
   (reference_list_integrity "u1" "i3" "i2" (some "Hat") (some "HAT") (some "Black")
      none none dbInv itemPantsU1 rfl (by decide) (by decide) (by decide) rfl
      (by decide) rfl (by decide) (by unfold refIntegrity; decide)).2.2⟩
